/-
Verification of the travel-planning agent in `src/flight_agent.py`.

The Python source is shallowly embedded below: dictionaries parsed from
upstream JSON become structures with `Option` fields (a `none` models a
missing key, or a key explicitly set to `null`), Python numbers become `ℚ`
or `ℤ`, dates become day numbers in `ℤ` (adding a day offset models
`timedelta(days = i)`), and every upstream HTTP/generation call becomes an
oracle function passed in as an argument.  Each definition keeps the name
of the Python function or local variable it embeds.
-/
import Mathlib

namespace FlightAgent

/-! ### Airport/City resolver (`AIRPORT_TO_CITY`, `get_city_name`) -/

/-- The static `AIRPORT_TO_CITY` table from `src/flight_agent.py`. -/
def AIRPORT_TO_CITY : List (String × String) :=
  [("BCN", "Barcelona, Spain"), ("MAD", "Madrid, Spain"), ("PAR", "Paris, France"),
   ("ROM", "Rome, Italy"), ("AMS", "Amsterdam, Netherlands"), ("BER", "Berlin, Germany"),
   ("LIS", "Lisbon, Portugal"), ("DUB", "Dublin, Ireland"), ("VIE", "Vienna, Austria"),
   ("PRG", "Prague, Czech Republic"),
   ("NYC", "New York, USA"), ("LAX", "Los Angeles, USA"), ("MIA", "Miami, USA"),
   ("SFO", "San Francisco, USA"), ("LAS", "Las Vegas, USA"),
   ("DXB", "Dubai, UAE"), ("BKK", "Bangkok, Thailand"), ("SIN", "Singapore"),
   ("TYO", "Tokyo, Japan"), ("HKG", "Hong Kong"),
   ("LHR", "London, UK"), ("LGW", "London, UK"), ("STN", "London, UK"),
   ("LTN", "London, UK"), ("LCY", "London, UK"), ("MAN", "Manchester, UK"),
   ("BHX", "Birmingham, UK"), ("EDI", "Edinburgh, UK"), ("GLA", "Glasgow, UK"),
   ("BRS", "Bristol, UK"), ("NCL", "Newcastle, UK"), ("LPL", "Liverpool, UK")]

/-- `get_city_name`: convert an airport code to a city name; unknown codes
pass through unchanged (`AIRPORT_TO_CITY.get(airport_code, airport_code)`). -/
def get_city_name (airport_code : String) : String :=
  match AIRPORT_TO_CITY.lookup airport_code with
  | some city => city
  | none => airport_code

/-! ### Flight data model

Upstream `best_flights` entries and the normalized `flight_details`
dictionaries built in `analyze_flexible_dates` (lines 157-205). -/

/-- A `departure_airport` / `arrival_airport` sub-object of an upstream leg. -/
structure Airport where
  time : Option String
  id : Option String
deriving DecidableEq, Repr

/-- One entry of the upstream `flights` array inside a `best_flights` item. -/
structure Leg where
  airline : Option String
  airline_logo : Option String
  departure_airport : Option Airport
  arrival_airport : Option Airport
  duration : Option ℚ
  layovers : List String
deriving DecidableEq, Repr

/-- An upstream `best_flights` item as consumed by `analyze_flexible_dates`. -/
structure BestFlight where
  flights : List Leg
  price : Option ℚ
  total_duration : Option ℚ
deriving DecidableEq, Repr

/-- The normalized `flight_details` dictionary built at lines 181-201. -/
structure FlightOffer where
  outbound_date : ℤ
  return_date : Option ℤ
  price : Option ℚ
  total_duration : Option ℚ
  airline : String
  airline_logo : String
  outbound_departure_time : String
  outbound_arrival_time : String
  outbound_departure_airport : String
  outbound_arrival_airport : String
  outbound_duration : Option ℚ
  return_departure_time : String
  return_arrival_time : String
  return_duration : Option ℚ
  booking_link : String
  layovers : List String
deriving DecidableEq, Repr

/-- The empty leg `{}` used when `flights_info` is empty. -/
def emptyLeg : Leg :=
  { airline := none, airline_logo := none, departure_airport := none,
    arrival_airport := none, duration := none, layovers := [] }

/-- Builds one `flight_details` record (body of the inner loop of
`analyze_flexible_dates`, lines 172-203). -/
def flightDetails (origin destination : String) (search_date : ℤ)
    (search_return : Option ℤ) (flight : BestFlight) : FlightOffer :=
  let flights_info := flight.flights
  let outbound_flight := flights_info.head?.getD emptyLeg
  let return_flight := flights_info[1]?
  { outbound_date := search_date
    return_date := search_return
    price := flight.price
    total_duration := flight.total_duration
    airline := outbound_flight.airline.getD "Unknown"
    airline_logo := outbound_flight.airline_logo.getD ""
    outbound_departure_time := ((outbound_flight.departure_airport.getD ⟨none, none⟩).time).getD ""
    outbound_arrival_time := ((outbound_flight.arrival_airport.getD ⟨none, none⟩).time).getD ""
    outbound_departure_airport := ((outbound_flight.departure_airport.getD ⟨none, none⟩).id).getD origin
    outbound_arrival_airport := ((outbound_flight.arrival_airport.getD ⟨none, none⟩).id).getD destination
    outbound_duration := outbound_flight.duration
    return_departure_time :=
      match return_flight with
      | some rf => ((rf.departure_airport.getD ⟨none, none⟩).time).getD ""
      | none => ""
    return_arrival_time :=
      match return_flight with
      | some rf => ((rf.arrival_airport.getD ⟨none, none⟩).time).getD ""
      | none => ""
    return_duration :=
      match return_flight with
      | some rf => rf.duration
      | none => none
    booking_link := "https://www.google.com/travel/flights?q=" ++ origin ++ "+to+"
      ++ destination ++ "+on+" ++ toString search_date
    layovers := outbound_flight.layovers }

/-- `analyze_flexible_dates` (lines 157-205).  The oracle `search_flights`
maps a (outbound date, optional return date) pair to the parsed upstream
response: `some bf` when the response carries a `best_flights` array `bf`,
`none` when the call failed (the `{"error": ...}` dictionary returned by
`search_flights` after a caught exception) or the response lacks the key. -/
def analyze_flexible_dates (search_flights : ℤ → Option ℤ → Option (List BestFlight))
    (origin destination : String) (start_date : ℤ) (return_date : Option ℤ)
    (days_range : ℕ) : List FlightOffer :=
  (List.range days_range).flatMap (fun i =>
    let search_date := start_date + i
    let search_return := return_date.map (fun r => r + (i : ℤ))
    match search_flights search_date search_return with
    | none => []
    | some best_flights =>
      (best_flights.take 3).map (flightDetails origin destination search_date search_return))

/-! ### Value-ranking filter (`find_best_value_flights`, lines 509-519)

Every offer dict reaching this function was built by
`analyze_flexible_dates`, which always sets the `price` key (line 184:
`"price": flight.get("price")`), so `x.get("price", float('inf'))` never
falls back to infinity: an unpriced offer carries the value `None`.
Python raises `TypeError` the first time that `None` is compared — in
`sorted` (line 514) when the list has two or more offers, or in the
filter comparison `None <= avg_price * 1.2` (line 518) for a single
offer — and the uncaught exception propagates out of the endpoint.
The embedding models that collapsed crash path explicitly:
`find_best_value_flights` returns `Except.error` as soon as a nonempty
input contains an unpriced offer, and the comparison and filter
functions below are only applied on the crash-free (all-priced)
domain, where the key of every offer is just its price. -/

/-- The sort key comparison of line 514 on the crash-free domain: both
prices are present and the key is the price itself.  `Option.getD 0`
merely totalizes the Lean function; a missing price never reaches a
comparison in the program — it raises `TypeError`, modeled by the error
branch of `find_best_value_flights`. -/
def priceLEb (p q : Option ℚ) : Bool := p.getD 0 ≤ q.getD 0

/-- The ordering on offers used by `sorted(flight_results, key = ...)`. -/
def offerLE (f g : FlightOffer) : Prop := priceLEb f.price g.price = true

instance : DecidableRel offerLE := fun f g => instDecidableEqBool (priceLEb f.price g.price) true

instance : IsTotal FlightOffer offerLE where
  total f g := by
    rcases le_total (f.price.getD 0) (g.price.getD 0) with h | h
    · exact Or.inl (by simpa [offerLE, priceLEb] using h)
    · exact Or.inr (by simpa [offerLE, priceLEb] using h)

instance : IsTrans FlightOffer offerLE where
  trans f g k := by
    simp only [offerLE, priceLEb, decide_eq_true_eq]
    exact le_trans

/-- `prices = [f.get("price", 0) for f in flight_results if f.get("price")]`:
only truthy prices (present and nonzero) enter the list. -/
def fbv_prices (flight_results : List FlightOffer) : List ℚ :=
  flight_results.filterMap (fun f =>
    f.price.bind (fun p => if p = 0 then none else some p))

/-- `avg_price = sum(prices) / len(prices) if prices else 0`. -/
def fbv_avg (flight_results : List FlightOffer) : ℚ :=
  let prices := fbv_prices flight_results
  if prices = [] then 0 else prices.sum / prices.length

/-- `sorted_flights = sorted(flight_results, key = lambda x: x.get("price", float('inf')))`
(line 514) on the crash-free domain.  Python's `sorted` is a stable
ascending sort by the key; `List.insertionSort` with the same total
preorder is exactly that. -/
def fbv_sorted (flight_results : List FlightOffer) : List FlightOffer :=
  flight_results.insertionSort offerLE

/-- The good-value test `f.get("price", float('inf')) <= avg_price * 1.2`
(line 518) on the crash-free domain: the price is present and is compared
directly (a `None` price raises `TypeError` before any offer is
returned). -/
def goodValue (avg_price : ℚ) (f : FlightOffer) : Bool :=
  f.price.getD 0 ≤ avg_price * (12 / 10)

/-- `best_value = [f for f in sorted_flights if f.get("price", float('inf')) <= avg_price * 1.2]`. -/
def fbv_selected (flight_results : List FlightOffer) : List FlightOffer :=
  (fbv_sorted flight_results).filter (goodValue (fbv_avg flight_results))

/-- The crash condition of `find_best_value_flights` on program-reachable
inputs: some offer's `price` value is `None` (the key itself is always
present, line 184). -/
def fbv_raises (flight_results : List FlightOffer) : Bool :=
  flight_results.any (fun f => f.price.isNone)

/-- `find_best_value_flights` (lines 509-519).  An empty input returns `[]`
before any comparison is made; a nonempty input containing an unpriced
offer makes Python compare `None` with a number (in `sorted` at line 514,
or in the filter at line 518 when the list is a single offer) and the
uncaught `TypeError` propagates to the caller, modeled as `Except.error`;
otherwise the good-value offers are returned sorted ascending by price and
truncated to the first 8. -/
def find_best_value_flights (flight_results : List FlightOffer) :
    Except String (List FlightOffer) :=
  if flight_results = [] then .ok []
  else if fbv_raises flight_results then .error "TypeError"
  else .ok ((fbv_selected flight_results).take 8)

/-! ### Itinerary data model and generator (`create_structured_itinerary`,
`_get_default_restaurants`, `_get_default_itinerary`, `_get_fallback_itinerary`,
lines 207-507) -/

/-- One restaurant entry of a meal list. -/
structure Restaurant where
  name : String
  cuisine : String
  price_per_person : ℚ
  rating : ℚ
  description : String
  neighborhood : String
  signature_dish : String
deriving DecidableEq, Repr

/-- The `restaurants` object: one list per meal slot. -/
structure Restaurants where
  breakfast : List Restaurant
  lunch : List Restaurant
  dinner : List Restaurant
deriving DecidableEq, Repr

/-- A `morning` / `afternoon` / `evening` activity block of a day plan. -/
structure ActivityBlock where
  time : String
  activity : String
  description : String
  cost : ℚ
  duration : String
  location : String
deriving DecidableEq, Repr

/-- One entry of `daily_itinerary`. -/
structure DayPlan where
  day : ℤ
  theme : String
  morning : ActivityBlock
  afternoon : ActivityBlock
  evening : ActivityBlock
  daily_total : ℚ
deriving DecidableEq, Repr

/-- The `overview` block of an itinerary document. -/
structure Overview where
  destination : String
  best_time_to_visit : String
  getting_around : String
  money_saving_tips : List String
  local_customs : String
deriving DecidableEq, Repr

/-- The `budget_summary` block of an itinerary document. -/
structure BudgetSummary where
  activities : ℚ
  food : ℚ
  transport : ℚ
  accommodation_estimate : ℚ
  total_estimate : ℚ
deriving DecidableEq, Repr

/-- A parsed top-level itinerary JSON object.  Each expected key is an
`Option` field (`none` = key absent); `extra` holds any other top-level
keys of the parsed dictionary, so that frame conditions over unknown keys
can be stated. -/
structure ItineraryData where
  overview : Option Overview
  daily_itinerary : Option (List DayPlan)
  restaurants : Option Restaurants
  budget_summary : Option BudgetSummary
  extra : List (String × String)
deriving DecidableEq, Repr

/-- `_get_default_restaurants` (lines 361-451). -/
def get_default_restaurants (city_name : String) : Restaurants :=
  { breakfast :=
      [{ name := city_name ++ " Breakfast Café", cuisine := "Local",
         price_per_person := 12, rating := 45 / 10,
         description := "Popular local breakfast spot",
         neighborhood := "City Center", signature_dish := "Traditional breakfast" },
       { name := "Morning Bistro", cuisine := "Café",
         price_per_person := 10, rating := 43 / 10,
         description := "Cozy breakfast place",
         neighborhood := "Old Town", signature_dish := "Fresh pastries" },
       { name := "Early Bird Café", cuisine := "International",
         price_per_person := 14, rating := 44 / 10,
         description := "Great morning coffee and food",
         neighborhood := "Downtown", signature_dish := "Avocado toast" }]
    lunch :=
      [{ name := city_name ++ " Lunch Spot", cuisine := "Local",
         price_per_person := 18, rating := 46 / 10,
         description := "Great lunch location",
         neighborhood := "City Center", signature_dish := "Local specialties" },
       { name := "Lunch Bistro", cuisine := "International",
         price_per_person := 20, rating := 44 / 10,
         description := "Popular lunch venue",
         neighborhood := "Downtown", signature_dish := "Daily specials" },
       { name := "Midday Kitchen", cuisine := "Mediterranean",
         price_per_person := 22, rating := 45 / 10,
         description := "Fresh lunch options",
         neighborhood := "Harbor", signature_dish := "Grilled fish" }]
    dinner :=
      [{ name := city_name ++ " Fine Dining", cuisine := "Fine Dining",
         price_per_person := 45, rating := 48 / 10,
         description := "Upscale dinner experience",
         neighborhood := "City Center", signature_dish := "Chef's tasting menu" },
       { name := "Evening Restaurant", cuisine := "Local",
         price_per_person := 35, rating := 47 / 10,
         description := "Traditional dinner spot",
         neighborhood := "Old Town", signature_dish := "Regional dishes" },
       { name := "Night Table", cuisine := "Contemporary",
         price_per_person := 40, rating := 46 / 10,
         description := "Modern cuisine",
         neighborhood := "Arts District", signature_dish := "Seasonal menu" }] }

/-- The per-day template appended for each `day` in `_get_default_itinerary`. -/
def defaultDayPlan (city_name : String) (day : ℤ) : DayPlan :=
  { day := day
    theme := "Day " ++ toString day ++ " Exploration"
    morning :=
      { time := "9:00 AM", activity := "Morning Activity",
        description := "Explore " ++ city_name ++ " in the morning",
        cost := 15, duration := "2-3 hours", location := "City Center" }
    afternoon :=
      { time := "2:00 PM", activity := "Afternoon Activity",
        description := "Continue exploration",
        cost := 25, duration := "3-4 hours", location := "Main attractions" }
    evening :=
      { time := "7:00 PM", activity := "Evening Activity",
        description := "Evening entertainment",
        cost := 30, duration := "2-3 hours", location := "Entertainment district" }
    daily_total := 70 }

/-- `_get_default_itinerary` (lines 453-486): `for day in range(1, days + 1)`
appends the per-day template.  For `days ≤ 0` the Python range is empty, so
the result has `days.toNat = max days 0` entries, with day indices `1..days`. -/
def get_default_itinerary (city_name : String) (days : ℤ) : List DayPlan :=
  (List.range days.toNat).map (fun (i : ℕ) => defaultDayPlan city_name ((i : ℤ) + 1))

/-- `_get_fallback_itinerary` (lines 488-507). -/
def get_fallback_itinerary (city_name : String) (duration_days : ℤ) : ItineraryData :=
  { overview := some
      { destination := city_name
        best_time_to_visit := "Year-round"
        getting_around := "Public transport and walking"
        money_saving_tips := ["Use public transport", "Book attractions online", "Eat at local spots"]
        local_customs := "Respect local customs and traditions" }
    daily_itinerary := some (get_default_itinerary city_name duration_days)
    restaurants := some (get_default_restaurants city_name)
    budget_summary := some
      { activities := 200, food := 300, transport := 50,
        accommodation_estimate := 400, total_estimate := 950 }
    extra := [] }

/-- Outcome of the single generation call made by `create_structured_itinerary`:
either the call raised (transport failure — the generic `except Exception`
branch), or it returned text whose code-fence-stripped parse is `none`
(`json.JSONDecodeError`) or `some` parsed document. -/
inductive GenOutcome where
  | failure
  | response (parsed : Option ItineraryData)
deriving DecidableEq, Repr

/-- `create_structured_itinerary` (lines 207-359).  The prompt composition
(lines 214-318) only builds the request text, so the `keywords`, `budget`
and `hotels` arguments influence nothing observable in this model; the
call's outcome is the oracle `gen`.  On a successful parse the document is
validated: a missing `restaurants` key is replaced with the defaults, and a
missing or empty `daily_itinerary` is replaced with the defaults. -/
def create_structured_itinerary (gen : GenOutcome) (destination_code : String)
    (duration_days : ℤ) : ItineraryData :=
  let city_name := get_city_name destination_code
  match gen with
  | .failure => get_fallback_itinerary city_name duration_days
  | .response none => get_fallback_itinerary city_name duration_days
  | .response (some itinerary_data) =>
    let d1 :=
      if itinerary_data.restaurants.isNone then
        { itinerary_data with restaurants := some (get_default_restaurants city_name) }
      else itinerary_data
    if d1.daily_itinerary.getD [] = [] then
      { d1 with daily_itinerary := some (get_default_itinerary city_name duration_days) }
    else d1

/-! ### Rental client (`search_airbnb`, lines 116-155) -/

/-- One `organic_results` entry of the general web search response. -/
structure OrganicResult where
  title : Option String
  snippet : Option String
  link : Option String
deriving DecidableEq, Repr

/-- The listing dictionary built by `search_airbnb` (lines 142-149). -/
structure AirbnbListing where
  name : String
  description : String
  link : String
  price_per_night : String
  total_price : String
  type : String
deriving DecidableEq, Repr

/-- Substring occurrence on character lists (the Python `in` test on strings). -/
def listHasSub (pat : List Char) : List Char → Bool
  | [] => pat.isEmpty
  | c :: t => pat.isPrefixOf (c :: t) || listHasSub pat t

/-- `pat in s` for strings. -/
def strHasSub (s pat : String) : Bool := listHasSub pat.toList s.toList

/-- Python's `str.lower()` (a structural model of `String.toLower`,
lowercasing character by character). -/
def strToLower (s : String) : String := String.mk (s.toList.map Char.toLower)

/-- `search_airbnb` (lines 116-155).  The oracle `web_search` maps the query
string to `some rs` when the response carries an `organic_results` array
`rs`, and `none` when the call failed (caught exception, which the code
turns into `[]`) or the key is absent (the listing loop is skipped).
Nights are computed as `(check_out_date - check_in_date).days` with no
check on the sign; `total_price` is the f-string `f"{nights * 75}"`. -/
def search_airbnb (web_search : String → Option (List OrganicResult))
    (destination_code : String) (check_in check_out : ℤ) : List AirbnbListing :=
  let city_name := get_city_name destination_code
  let nights := check_out - check_in
  match web_search ("airbnb " ++ city_name) with
  | none => []
  | some organic_results =>
    (organic_results.take 8).filterMap (fun result =>
      if strHasSub (strToLower (result.link.getD "")) "airbnb" then
        some { name := result.title.getD "Airbnb Listing"
               description := result.snippet.getD ""
               link := result.link.getD "#"
               price_per_night := "50-150"
               total_price := toString (nights * 75)
               type := "Entire home/Private room" }
      else none)

/-! ### Hotel client and normalization (`search_hotels`, lines 89-114, and the
`hotel_options` loop of the coordinator, lines 574-590) -/

/-- A `rate_per_night` / `total_rate` sub-object of an upstream property. -/
structure RateInfo where
  lowest : Option String
deriving DecidableEq, Repr

/-- One `properties` entry of the upstream hotel search response. -/
structure HotelProperty where
  name : Option String
  rate_per_night : Option RateInfo
  total_rate : Option RateInfo
  overall_rating : Option ℚ
  reviews : Option ℕ
  link : Option String
  description : Option String
  images : List String
  amenities : List String
deriving DecidableEq, Repr

/-- A normalized hotel option (coordinator lines 578-589).  `rating = none`
models the `"N/A"` marker used when `overall_rating` is absent. -/
structure HotelOption where
  name : String
  price_per_night : String
  total_price : String
  rating : Option ℚ
  reviews : ℕ
  link : String
  description : String
  images : List String
  amenities : List String
  type : String
deriving DecidableEq, Repr

/-- `search_hotels` (lines 89-114): one upstream structured search keyed by
the resolved city name; `none` models a caught transport error or a
response without a `properties` array. -/
def search_hotels (hotels_api : String → ℤ → ℤ → Option (List HotelProperty))
    (destination_code : String) (check_in check_out : ℤ) : Option (List HotelProperty) :=
  hotels_api (get_city_name destination_code) check_in check_out

/-- Normalization of one hotel property (coordinator lines 578-589). -/
def mkHotelOption (hotel : HotelProperty) : HotelOption :=
  { name := hotel.name.getD "N/A"
    price_per_night := ((hotel.rate_per_night.getD ⟨none⟩).lowest).getD "N/A"
    total_price := ((hotel.total_rate.getD ⟨none⟩).lowest).getD "N/A"
    rating := hotel.overall_rating
    reviews := hotel.reviews.getD 0
    link := hotel.link.getD "#"
    description := (hotel.description.getD "").take 200
    images := hotel.images.take 3
    amenities := hotel.amenities.take 5
    type := "hotel" }

/-- A normalized rental option (coordinator lines 595-603). -/
structure AirbnbOption where
  name : String
  price_per_night : String
  total_price : String
  description : String
  link : String
  type : String
  property_type : String
deriving DecidableEq, Repr

/-! ### Request coordinator (`create_itinerary`, lines 530-645) -/

/-- The inbound request body (`data = request.json`); every `data.get`
key is an `Option` field. -/
structure TripRequest where
  destination : Option String
  keywords : List String
  budget : Option ℚ
  origin : Option String
  outbound_date : Option ℤ
  return_date : Option ℤ
  duration_days : Option ℤ
  accommodation_type : Option String

/-- Python truthiness of an optional string field (`None` and `""` are falsy). -/
def truthy : Option String → Bool
  | none => false
  | some v => v ≠ ""

/-- One upstream call issued while handling a request; the coordinator is
instrumented to return the ordered list of calls it makes, so that
"no upstream calls" claims are statable. -/
inductive UpstreamCall where
  | flightSearch (origin destination : String) (outbound_date : ℤ) (return_date : Option ℤ)
  | hotelSearch (city : String) (check_in check_out : ℤ)
  | webSearch (query : String)
  | generation (destination_code : String) (budget : ℚ) (duration_days : ℤ)
deriving DecidableEq, Repr

/-- The oracle bundle: one function per outbound collaborator, plus the
outcome of the single generation call. -/
structure Upstream where
  flights : ℤ → Option ℤ → Option (List BestFlight)
  hotels : String → ℤ → ℤ → Option (List HotelProperty)
  web : String → Option (List OrganicResult)
  gen : GenOutcome

/-- The JSON object returned on success (coordinator lines 627-641). -/
structure ItineraryResponse where
  destination : String
  keywords : List String
  total_budget : ℚ
  trip_duration : ℤ
  outbound_date : ℤ
  return_date : ℤ
  flight_options : List FlightOffer
  recommended_flight_cost : ℚ
  hotel_options : List HotelOption
  airbnb_options : List AirbnbOption
  accommodation_type : String
  remaining_budget : ℚ
  itinerary : ItineraryData

/-- The HTTP result of the `/itinerary` endpoint: failed validation (400),
an uncaught exception escaping the handler — Flask turns it into an
Internal Server Error (500) — or the assembled response (200). -/
inductive CoordResult where
  | badRequest (error : String)
  | serverError (error : String)
  | ok (resp : ItineraryResponse)

/-- HTTP status code of a coordinator result. -/
def httpStatus : CoordResult → ℕ
  | .badRequest _ => 400
  | .serverError _ => 500
  | .ok _ => 200

/-- Duration and (possibly synthesized) return date (coordinator lines
555-561): with an explicit return date, `duration_days = (end - start).days`;
otherwise `duration_days` defaults to 5 and the return date is synthesized
as `outbound + duration`. -/
def coordDurationReturn (data : TripRequest) : ℤ × ℤ :=
  let start := data.outbound_date.getD 0
  match data.return_date with
  | some e => (e - start, e)
  | none =>
    let duration_days := data.duration_days.getD 5
    (duration_days, start + duration_days)

/-- `flight_cost = best_flights[0].get('price', 0) if best_flights else 0`
(line 607).  The dictionary default only covers an absent price key; every
offer the ranking returns carries a price, because a nonempty input with an
unpriced offer raises `TypeError` before any list is returned, so
`Option.getD 0` is faithful on reachable inputs. -/
def coordFlightCost (best_flights : List FlightOffer) : ℚ :=
  match best_flights with
  | [] => 0
  | f :: _ => f.price.getD 0

/-- The validation test `all([destination, origin, outbound_date])`
(line 551). -/
def coordValid (data : TripRequest) : Bool :=
  truthy data.destination && truthy data.origin && data.outbound_date.isSome

/-- The seven sweep calls issued inside `analyze_flexible_dates`
(line 566), recorded for the call log; they happen before the ranking
step, so they are issued even when the ranking then raises. -/
def coord_flight_calls (data : TripRequest) : List UpstreamCall :=
  (List.range 7).map (fun (i : ℕ) =>
    UpstreamCall.flightSearch (data.origin.getD "") (data.destination.getD "")
      (data.outbound_date.getD 0 + (i : ℤ)) (some ((coordDurationReturn data).2 + (i : ℤ))))

/-- `all_flights = agent.analyze_flexible_dates(origin, destination,
outbound_date, return_date, 7)` (line 566). -/
def coord_all_flights (up : Upstream) (data : TripRequest) : List FlightOffer :=
  analyze_flexible_dates up.flights (data.origin.getD "") (data.destination.getD "")
    (data.outbound_date.getD 0) (some (coordDurationReturn data).2) 7

/-- The part of `create_itinerary` after a successful ranking (lines
568-645): accommodation fetches, budgeting, generation, and response
assembly, paired with the ordered list of upstream calls issued.
`best_flights` is the ranked list the ranking step returned. -/
def coord_ok_response (up : Upstream) (data : TripRequest)
    (best_flights : List FlightOffer) :
    ItineraryResponse × List UpstreamCall :=
  let budget := data.budget.getD 1000
  let accommodation_type := data.accommodation_type.getD "hotel"
  let destination := data.destination.getD ""
    let outbound_date := data.outbound_date.getD 0
    let destination_city := get_city_name destination
    let duration_days := (coordDurationReturn data).1
    let return_date := (coordDurationReturn data).2
    let flight_calls := coord_flight_calls data
    let wants_hotel := accommodation_type = "hotel" ∨ accommodation_type = "mixed"
    let wants_airbnb := accommodation_type = "airbnb" ∨ accommodation_type = "mixed"
    let hotel_result : Option (List HotelProperty) :=
      if wants_hotel then search_hotels up.hotels destination outbound_date return_date
      else none
    let hotel_options : List HotelOption :=
      match hotel_result with
      | some properties => (properties.take 10).map mkHotelOption
      | none => []
    let hotel_calls :=
      if wants_hotel then [UpstreamCall.hotelSearch destination_city outbound_date return_date]
      else []
    let airbnb_listings :=
      if wants_airbnb then search_airbnb up.web destination outbound_date return_date
      else []
    let airbnb_options : List AirbnbOption := airbnb_listings.map (fun listing =>
      { name := listing.name
        price_per_night := listing.price_per_night
        total_price := listing.total_price
        description := listing.description
        link := listing.link
        type := "airbnb"
        property_type := listing.type })
    let web_calls :=
      if wants_airbnb then [UpstreamCall.webSearch ("airbnb " ++ destination_city)]
      else []
    let flight_cost := coordFlightCost best_flights
    let remaining_budget := budget - flight_cost
    let itinerary := create_structured_itinerary up.gen destination duration_days
    let gen_calls := [UpstreamCall.generation destination remaining_budget duration_days]
    ({ destination := destination_city
       keywords := data.keywords
       total_budget := budget
       trip_duration := duration_days
       outbound_date := outbound_date
       return_date := return_date
       flight_options := best_flights
       recommended_flight_cost := flight_cost
       hotel_options := hotel_options
       airbnb_options := airbnb_options
       accommodation_type := accommodation_type
       remaining_budget := remaining_budget
       itinerary := itinerary },
     flight_calls ++ hotel_calls ++ web_calls ++ gen_calls)

/-- `create_itinerary` (lines 530-645): validate; run the sweep and the
ranking; an exception raised by the ranking (unpriced offer swept)
escapes the handler as HTTP 500 with only the sweep calls issued;
otherwise assemble the full response.  Returns `(result, calls issued)`. -/
def create_itinerary (up : Upstream) (data : TripRequest) : CoordResult × List UpstreamCall :=
  if ¬ coordValid data then
    (.badRequest "Missing required fields", [])
  else
    match find_best_value_flights (coord_all_flights up data) with
    | .error e => (.serverError e, coord_flight_calls data)
    | .ok best_flights =>
      (CoordResult.ok (coord_ok_response up data best_flights).1,
       (coord_ok_response up data best_flights).2)

/-! ### Date-sweep bookkeeping (for the cardinality claims) -/

/-- The upstream call issued at offset `i` of the sweep. -/
def sweepFetch (search_flights : ℤ → Option ℤ → Option (List BestFlight))
    (start_date : ℤ) (return_date : Option ℤ) (i : ℕ) : Option (List BestFlight) :=
  search_flights (start_date + i) (return_date.map (fun r => r + (i : ℤ)))

/-- Number of sweep offsets whose upstream call succeeded (returned a
`best_flights` array). -/
def sweepSuccesses (search_flights : ℤ → Option ℤ → Option (List BestFlight))
    (start_date : ℤ) (return_date : Option ℤ) (days_range : ℕ) : ℕ :=
  ((List.range days_range).filter (fun i =>
    (sweepFetch search_flights start_date return_date i).isSome)).length

/-- Offers contributed by offset `i`: none on failure, the top
`min 3 |best_flights|` on success. -/
def sweepContribution (search_flights : ℤ → Option ℤ → Option (List BestFlight))
    (start_date : ℤ) (return_date : Option ℤ) (i : ℕ) : ℕ :=
  match sweepFetch search_flights start_date return_date i with
  | none => 0
  | some best_flights => min 3 best_flights.length

/-- A sweep response carrying a single `best_flights` entry at every offset. -/
def oneBestFlight : BestFlight :=
  { flights := [], price := some 100, total_duration := none }

/-- Upstream that always succeeds with exactly one best flight. -/
def oneFlightSearch : ℤ → Option ℤ → Option (List BestFlight) :=
  fun _ _ => some [oneBestFlight]

/-- Upstream that always succeeds with exactly three best flights. -/
def threeFlightSearch : ℤ → Option ℤ → Option (List BestFlight) :=
  fun _ _ => some [oneBestFlight, oneBestFlight, oneBestFlight]

/-! ### Concrete sample data for the worked examples and witnesses -/

/-- A shared concrete offer, used for the worked examples: only the airline
label and the price vary. -/
def sampleOffer (airline : String) (price : Option ℚ) : FlightOffer :=
  { outbound_date := 0, return_date := none, price := price, total_duration := none,
    airline := airline, airline_logo := "", outbound_departure_time := "",
    outbound_arrival_time := "", outbound_departure_airport := "LHR",
    outbound_arrival_airport := "BCN", outbound_duration := none,
    return_departure_time := "", return_arrival_time := "", return_duration := none,
    booking_link := "", layovers := [] }

/-- A minimal restaurant entry for counterexample documents. -/
def sampleRestaurant : Restaurant :=
  { name := "R", cuisine := "Local", price_per_person := 10, rating := 4,
    description := "", neighborhood := "", signature_dish := "" }

/-- A parsed response that passes validation though its breakfast list is
empty: `restaurants` is present, `daily_itinerary` present and nonempty. -/
def emptyBreakfastDoc : ItineraryData :=
  { overview := none
    daily_itinerary := some [defaultDayPlan "Barcelona, Spain" 1]
    restaurants := some { breakfast := [], lunch := [sampleRestaurant],
                          dinner := [sampleRestaurant] }
    budget_summary := none
    extra := [] }

/-- A parsed response missing `restaurants` whose `daily_itinerary` is
present but empty, with other top-level content to preserve. -/
def noRestaurantsDoc : ItineraryData :=
  { overview := some
      { destination := "Rome, Italy"
        best_time_to_visit := "Spring"
        getting_around := "Metro"
        money_saving_tips := ["walk"]
        local_customs := "none" }
    daily_itinerary := some []
    restaurants := none
    budget_summary := none
    extra := [("model_notes", "generated")] }

/-- A web-search result whose link is on the listing platform. -/
def organicAirbnbResult : OrganicResult :=
  { title := some "Cozy flat - Airbnb", snippet := some "Nice loft",
    link := some "https://www.airbnb.com/rooms/1" }

/-- A trivial oracle bundle: every upstream call fails. -/
def emptyUpstream : Upstream :=
  { flights := fun _ _ => none
    hotels := fun _ _ _ => none
    web := fun _ => none
    gen := GenOutcome.failure }

/-- A request missing its destination. -/
def missingDestRequest : TripRequest :=
  { destination := none, keywords := [], budget := none, origin := some "LHR",
    outbound_date := some 20, return_date := none, duration_days := none,
    accommodation_type := none }

/-- A complete valid request (no ranked flights exist under the trivial
oracles, so the cheapest-flight cost defaults to 0). -/
def validRequest : TripRequest :=
  { destination := some "BCN", keywords := ["food"], budget := some 500,
    origin := some "LHR", outbound_date := some 20, return_date := some 25,
    duration_days := none, accommodation_type := none }

/-- A valid request whose return date (day 8) precedes its outbound date
(day 10). -/
def invertedDatesRequest : TripRequest :=
  { destination := some "BCN", keywords := [], budget := some 300,
    origin := some "LHR", outbound_date := some 10, return_date := some 8,
    duration_days := none, accommodation_type := none }

/-- An upstream `best_flights` entry whose price is `None` (the upstream
omitted it; line 184 stores it as the value of the always-present key). -/
def unpricedBestFlight : BestFlight :=
  { flights := [], price := none, total_duration := none }

/-- A sweep upstream returning one unpriced best flight at every offset. -/
def unpricedFlightSearch : ℤ → Option ℤ → Option (List BestFlight) :=
  fun _ _ => some [unpricedBestFlight]

/-- An oracle bundle whose sweep yields unpriced offers (everything else
trivial): the ranking step then raises `TypeError`. -/
def crashUpstream : Upstream :=
  { flights := unpricedFlightSearch
    hotels := fun _ _ _ => none
    web := fun _ => none
    gen := GenOutcome.failure }

/-- Recognizer for generation calls in the call log. -/
def isGenerationCall : UpstreamCall → Bool
  | .generation _ _ _ => true
  | _ => false

/-! ### Helper lemmas about the value-ranking filter -/

/-- A list whose offers all carry a price never triggers the `TypeError`. -/
theorem fbv_not_raises (l : List FlightOffer) (h : ∀ f ∈ l, f.price.isSome) :
    ¬ fbv_raises l = true := by
  intro hr
  obtain ⟨f, hf, hn⟩ := List.any_eq_true.1 hr
  have hs := h f hf
  rw [Option.isNone_iff_eq_none] at hn
  rw [hn] at hs
  exact Bool.noConfusion hs

/-- On the crash-free (all-priced) domain the ranking returns the truncated
selected list; on the empty input both sides are `ok []`. -/
theorem fbv_ok (l : List FlightOffer) (h : ∀ f ∈ l, f.price.isSome) :
    find_best_value_flights l = Except.ok ((fbv_selected l).take 8) := by
  by_cases hnil : l = []
  · subst hnil
    simp [find_best_value_flights, fbv_selected, fbv_sorted]
  · rw [find_best_value_flights, if_neg hnil, if_neg (fbv_not_raises l h)]

/-- A nonempty input containing an unpriced offer raises the `TypeError`. -/
theorem fbv_error (l : List FlightOffer) (hnil : l ≠ [])
    (h : ∃ f ∈ l, f.price = none) :
    find_best_value_flights l = Except.error "TypeError" := by
  obtain ⟨f, hf, hp⟩ := h
  have hr : fbv_raises l = true :=
    List.any_eq_true.2 ⟨f, hf, by rw [Option.isNone_iff_eq_none, hp]⟩
  rw [find_best_value_flights, if_neg hnil, if_pos hr]

/-- Inversion of a successful ranking: the output is the truncated selected
list and every input offer carries a price. -/
theorem fbv_ok_inv (l out : List FlightOffer)
    (h : find_best_value_flights l = Except.ok out) :
    out = (fbv_selected l).take 8 ∧ ∀ f ∈ l, f.price.isSome := by
  by_cases hnil : l = []
  · subst hnil
    have h' : Except.ok ([] : List FlightOffer) = Except.ok out := h
    have hout : out = [] := (Except.ok.inj h').symm
    subst hout
    exact ⟨by simp [fbv_selected, fbv_sorted], by simp⟩
  · by_cases hr : fbv_raises l = true
    · exfalso
      have h' : (Except.error "TypeError" : Except String (List FlightOffer)) =
          Except.ok out := by
        rw [← h, find_best_value_flights, if_neg hnil, if_pos hr]
      exact Except.noConfusion h'
    · have h' : (Except.ok ((fbv_selected l).take 8) : Except String (List FlightOffer)) =
          Except.ok out := by
        rw [← h, find_best_value_flights, if_neg hnil, if_neg hr]
      refine ⟨(Except.ok.inj h').symm, ?_⟩
      intro f hf
      by_contra hno
      apply hr
      rw [fbv_raises]
      refine List.any_eq_true.2 ⟨f, hf, ?_⟩
      rw [Option.isNone_iff_eq_none, ← Option.not_isSome_iff_eq_none]
      exact fun hs => hno hs

/-- The selected list is a permutation of the good-value offers of the input. -/
theorem fbv_selected_perm (l : List FlightOffer) :
    List.Perm (fbv_selected l) (l.filter (goodValue (fbv_avg l))) :=
  (List.perm_insertionSort offerLE l).filter (goodValue (fbv_avg l))

/-- Zero never enters the mean computation: the comprehension guard
`if f.get("price")` drops falsy prices. -/
theorem zero_not_mem_fbv_prices (l : List FlightOffer) : (0 : ℚ) ∉ fbv_prices l := by
  intro h
  obtain ⟨f, -, hf⟩ := List.mem_filterMap.1 h
  rcases hp : f.price with _ | p <;> rw [hp] at hf
  · exact Option.noConfusion hf
  · by_cases hz : p = 0 <;> simp [hz, Option.bind] at hf

/-- The mean is nonnegative whenever all prices entering it are. -/
theorem fbv_avg_nonneg (l : List FlightOffer) (h : ∀ p ∈ fbv_prices l, 0 ≤ p) :
    0 ≤ fbv_avg l := by
  rw [fbv_avg]
  split
  · exact le_refl 0
  · exact div_nonneg (List.sum_nonneg h) (Nat.cast_nonneg _)

/-- A member of a successfully ranked output is a good-value offer: it
carries a price at most `1.2 ×` the mean. -/
theorem fbv_mem_good (l out : List FlightOffer)
    (h : find_best_value_flights l = Except.ok out) (f : FlightOffer) (hf : f ∈ out) :
    ∃ p, f.price = some p ∧ p ≤ fbv_avg l * (12 / 10) := by
  obtain ⟨hout, hall⟩ := fbv_ok_inv l out h
  subst hout
  have hsel := List.mem_of_mem_take hf
  have hmem : f ∈ l := (List.mem_insertionSort offerLE).1 (List.mem_filter.1 hsel).1
  have hgood := (List.mem_filter.1 hsel).2
  rcases hp : f.price with _ | p
  · have hs := hall f hmem
    rw [hp] at hs
    exact absurd hs (by simp)
  · refine ⟨p, rfl, ?_⟩
    rw [goodValue] at hgood
    have := of_decide_eq_true hgood
    rw [hp] at this
    simpa using this

/-- A successfully ranked output is sorted ascending by the price key. -/
theorem find_best_value_flights_sorted (l out : List FlightOffer)
    (h : find_best_value_flights l = Except.ok out) :
    List.Sorted offerLE out := by
  obtain ⟨hout, -⟩ := fbv_ok_inv l out h
  subst hout
  exact List.Pairwise.sublist (List.take_sublist 8 _)
    ((List.sorted_insertionSort offerLE l).filter _)

/-- In a sorted offer list, `best_flights[0].get('price', 0)` is a lower
bound on every member's price. -/
theorem coordFlightCost_min (best : List FlightOffer) (hs : List.Sorted offerLE best) :
    ∀ f ∈ best, ∀ p : ℚ, f.price = some p → coordFlightCost best ≤ p := by
  intro f hf p hp
  cases best with
  | nil => cases hf
  | cons f0 t =>
    rw [coordFlightCost]
    rcases List.mem_cons.1 hf with h | h
    · subst h
      rw [hp]
      simp
    · have hle : offerLE f0 f := (List.pairwise_cons.1 hs).1 f h
      rw [offerLE, priceLEb] at hle
      have hle' := of_decide_eq_true hle
      rw [hp] at hle'
      simpa using hle'

/-! ### Claim theorems for the value-ranking filter -/

/-- **C1 counterexample**: a (nonempty) input containing an unpriced offer
does not have that offer gracefully excluded — the comparison of its `None`
price raises `TypeError`, so the call errors instead of returning a list;
in particular an all-unpriced input does not return the empty list without
error, refuting the claim as stated. -/
theorem C1_counterexample :
    find_best_value_flights [sampleOffer "X" none] = Except.error "TypeError" ∧
    ∀ out : List FlightOffer,
      find_best_value_flights [sampleOffer "X" none] ≠ Except.ok out := by
  refine ⟨rfl, fun out h => ?_⟩
  have h' : (Except.error "TypeError" : Except String (List FlightOffer)) =
      Except.ok out := h
  exact Except.noConfusion h'

/-- **C1 (amended)**: on empty input the ranking returns `[]` without error;
on a nonempty input containing an unpriced offer it raises `TypeError`
(so unpriced offers are never selected — by crashing, not by filtering);
on all-priced input it computes the arithmetic mean over the truthy
(nonzero) prices and returns exactly the offers whose price is at most
`1.2 ×` that mean, sorted ascending by price and truncated to the first 8;
for prices `[100, 100, 1000]` the mean is `400`, the threshold `480`, and
the output is the two 100-priced offers in ascending (stable) order. -/
theorem C1_find_best_value_flights_spec :
    (find_best_value_flights [] = Except.ok []) ∧
    (∀ l : List FlightOffer, l ≠ [] → (∃ f ∈ l, f.price = none) →
      find_best_value_flights l = Except.error "TypeError") ∧
    (∀ l : List FlightOffer, (∀ f ∈ l, f.price ≠ some 0) →
      fbv_prices l = l.filterMap FlightOffer.price) ∧
    (∀ l : List FlightOffer, fbv_prices l ≠ [] →
      fbv_avg l = (fbv_prices l).sum / (fbv_prices l).length) ∧
    (∀ l : List FlightOffer, (∀ f ∈ l, f.price.isSome) →
      find_best_value_flights l = Except.ok ((fbv_selected l).take 8)) ∧
    (∀ l : List FlightOffer, List.Perm (fbv_selected l) (l.filter (goodValue (fbv_avg l)))) ∧
    (∀ l out : List FlightOffer, find_best_value_flights l = Except.ok out →
      List.Sorted offerLE out ∧ out.length ≤ 8 ∧
      ∀ f ∈ out, ∃ p, f.price = some p ∧ p ≤ fbv_avg l * (12 / 10)) ∧
    (fbv_avg [sampleOffer "A" (some 100), sampleOffer "B" (some 100),
        sampleOffer "C" (some 1000)] = 400 ∧
      (400 : ℚ) * (12 / 10) = 480 ∧
      find_best_value_flights [sampleOffer "A" (some 100), sampleOffer "B" (some 100),
        sampleOffer "C" (some 1000)] =
        Except.ok [sampleOffer "A" (some 100), sampleOffer "B" (some 100)]) := by
  have hprices : fbv_prices [sampleOffer "A" (some 100), sampleOffer "B" (some 100),
      sampleOffer "C" (some 1000)] = [100, 100, 1000] := by
    simp [fbv_prices, sampleOffer, List.filterMap_cons, Option.bind]
  have havg : fbv_avg [sampleOffer "A" (some 100), sampleOffer "B" (some 100),
      sampleOffer "C" (some 1000)] = 400 := by
    rw [fbv_avg, hprices, if_neg (by simp)]
    norm_num [List.sum_cons, List.sum_nil]
  refine ⟨rfl, fbv_error, ?_, ?_, fbv_ok, fbv_selected_perm, ?_, havg, by norm_num, ?_⟩
  · intro l h
    rw [fbv_prices]
    apply List.filterMap_congr
    intro f hf
    rcases hp : f.price with _ | p
    · rfl
    · have : ¬ p = 0 := fun hz => h f hf (by rw [hp, hz])
      simp [Option.bind, this]
  · intro l h
    rw [fbv_avg, if_neg h]
  · intro l out h
    obtain ⟨hout, -⟩ := fbv_ok_inv l out h
    refine ⟨find_best_value_flights_sorted l out h, ?_, fbv_mem_good l out h⟩
    rw [hout]
    exact le_trans (List.length_take_le 8 _) (le_refl 8)
  · have hsort : fbv_sorted [sampleOffer "A" (some 100), sampleOffer "B" (some 100),
        sampleOffer "C" (some 1000)] = [sampleOffer "A" (some 100), sampleOffer "B" (some 100),
        sampleOffer "C" (some 1000)] := by
      simp [fbv_sorted, List.insertionSort, List.orderedInsert, offerLE, priceLEb, sampleOffer]
    have hsel : fbv_selected [sampleOffer "A" (some 100), sampleOffer "B" (some 100),
        sampleOffer "C" (some 1000)] = [sampleOffer "A" (some 100), sampleOffer "B" (some 100)] := by
      rw [fbv_selected, hsort, havg]
      simp [List.filter, goodValue, sampleOffer]
      norm_num
    rw [find_best_value_flights, if_neg (by simp),
      if_neg (by simp [fbv_raises, sampleOffer]), hsel]
    simp

/-- Witness for C1 (amended): the crash clause evaluated at a one-offer
unpriced list. -/
theorem C1_witness :
    find_best_value_flights [sampleOffer "X" none] = Except.error "TypeError" :=
  C1_find_best_value_flights_spec.2.1 [sampleOffer "X" none] (by simp)
    ⟨sampleOffer "X" none, List.mem_singleton.2 rfl, rfl⟩

/-- **C9 counterexample**: a zero-priced offer next to an unpriced offer is
not selected — the ranking raises `TypeError` on that input and returns no
offer list at all, refuting the claimed unconditional selection. -/
theorem C9_counterexample :
    find_best_value_flights [sampleOffer "Z" (some 0), sampleOffer "U" none] =
      Except.error "TypeError" ∧
    ¬ ∃ out, find_best_value_flights [sampleOffer "Z" (some 0), sampleOffer "U" none] =
        Except.ok out ∧ sampleOffer "Z" (some 0) ∈ out := by
  refine ⟨rfl, ?_⟩
  rintro ⟨out, hout, -⟩
  have h' : (Except.error "TypeError" : Except String (List FlightOffer)) =
      Except.ok out := hout
  exact Except.noConfusion h'

/-- **C9 (amended)**: a zero-priced offer is excluded from the mean
computation (only truthy prices enter `prices`), and on the crash-free
domain — every offer priced, all prices entering the mean nonnegative, so
the mean (or its default `0`) is nonnegative — every zero-priced offer
passes the good-value test and is selected, subject only to the 8-offer
truncation; with an unpriced offer present the ranking instead raises. -/
theorem C9_zero_price_selected :
    (∀ l : List FlightOffer, (0 : ℚ) ∉ fbv_prices l) ∧
    (∀ l : List FlightOffer, ∀ f ∈ l, f.price = some 0 →
      (∀ g ∈ l, g.price.isSome) → (∀ p ∈ fbv_prices l, 0 ≤ p) →
      f ∈ fbv_selected l ∧
      find_best_value_flights l = Except.ok ((fbv_selected l).take 8)) := by
  refine ⟨zero_not_mem_fbv_prices, ?_⟩
  intro l f hfl hp hall hnn
  refine ⟨?_, fbv_ok l hall⟩
  rw [fbv_selected]
  apply List.mem_filter.2
  refine ⟨(List.mem_insertionSort offerLE).2 hfl, ?_⟩
  rw [goodValue, hp]
  have h0 : (0 : ℚ) ≤ fbv_avg l * (12 / 10) :=
    mul_nonneg (fbv_avg_nonneg l hnn) (by norm_num)
  exact decide_eq_true (show ((some (0 : ℚ)).getD 0) ≤ fbv_avg l * (12 / 10) by simpa using h0)

/-- Witness for C9 (amended): a zero-priced offer next to a 1000-priced one
(mean `1000`, threshold `1200`) is selected. -/
theorem C9_witness :
    sampleOffer "Z" (some 0) ∈ fbv_selected [sampleOffer "Z" (some 0),
      sampleOffer "C" (some 1000)] := by
  have h := (C9_zero_price_selected.2 [sampleOffer "Z" (some 0), sampleOffer "C" (some 1000)]
    (sampleOffer "Z" (some 0)) (by simp) rfl (by decide) ?_).1
  · exact h
  · intro p hp
    have : fbv_prices [sampleOffer "Z" (some 0), sampleOffer "C" (some 1000)] = [1000] := by
      simp [fbv_prices, sampleOffer, List.filterMap_cons, Option.bind]
    rw [this] at hp
    simp only [List.mem_singleton] at hp
    rw [hp]
    norm_num

/-! ### Helper lemmas about the itinerary generator -/

/-- Restaurants of a repaired document: the defaults exactly when the key
was absent. -/
theorem csi_restaurants (code : String) (days : ℤ) (d : ItineraryData) :
    (create_structured_itinerary (GenOutcome.response (some d)) code days).restaurants =
      if d.restaurants.isNone then some (get_default_restaurants (get_city_name code))
      else d.restaurants := by
  rw [create_structured_itinerary]
  by_cases h : d.restaurants.isNone <;> simp only [h, if_pos, if_neg, Bool.false_eq_true,
    not_false_eq_true, if_true, if_false] <;> split <;> rfl

/-- Daily itinerary of a repaired document: the defaults exactly when the
key was absent or the list empty. -/
theorem csi_daily (code : String) (days : ℤ) (d : ItineraryData) :
    (create_structured_itinerary (GenOutcome.response (some d)) code days).daily_itinerary =
      if d.daily_itinerary.getD [] = [] then
        some (get_default_itinerary (get_city_name code) days)
      else d.daily_itinerary := by
  rw [create_structured_itinerary]
  by_cases h : d.restaurants.isNone <;>
    simp only [h, Bool.false_eq_true, not_false_eq_true, if_true, if_false] <;>
    by_cases h2 : d.daily_itinerary.getD [] = [] <;> simp [h2]

/-- The `overview` field survives validation untouched. -/
theorem csi_overview (code : String) (days : ℤ) (d : ItineraryData) :
    (create_structured_itinerary (GenOutcome.response (some d)) code days).overview =
      d.overview := by
  rw [create_structured_itinerary]
  by_cases h : d.restaurants.isNone <;>
    simp only [h, Bool.false_eq_true, not_false_eq_true, if_true, if_false] <;> split <;> rfl

/-- The `budget_summary` field survives validation untouched. -/
theorem csi_budget_summary (code : String) (days : ℤ) (d : ItineraryData) :
    (create_structured_itinerary (GenOutcome.response (some d)) code days).budget_summary =
      d.budget_summary := by
  rw [create_structured_itinerary]
  by_cases h : d.restaurants.isNone <;>
    simp only [h, Bool.false_eq_true, not_false_eq_true, if_true, if_false] <;> split <;> rfl

/-- The unknown top-level keys survive validation untouched. -/
theorem csi_extra (code : String) (days : ℤ) (d : ItineraryData) :
    (create_structured_itinerary (GenOutcome.response (some d)) code days).extra =
      d.extra := by
  rw [create_structured_itinerary]
  by_cases h : d.restaurants.isNone <;>
    simp only [h, Bool.false_eq_true, not_false_eq_true, if_true, if_false] <;> split <;> rfl

/-- The default daily itinerary has one entry per day of the (truncated)
range `1..days`. -/
theorem get_default_itinerary_length (city : String) (days : ℤ) :
    (get_default_itinerary city days).length = days.toNat := by
  rw [get_default_itinerary, List.length_map, List.length_range]

/-- The default daily itinerary is nonempty for a positive day count. -/
theorem get_default_itinerary_ne_nil (city : String) (days : ℤ) (hd : 1 ≤ days) :
    get_default_itinerary city days ≠ [] := by
  have hlen := get_default_itinerary_length city days
  intro h
  rw [h] at hlen
  simp at hlen
  omega

/-! ### Claim theorems for the itinerary generator -/

/-- **C2**: a transport failure or unparsable generation response makes
`create_structured_itinerary` return exactly the synthetic fallback
document; its `daily_itinerary` has length equal to the requested duration
(for any nonnegative duration) and is the identical per-day template with
the day index substituted, and each meal list has at least one entry. -/
theorem C2_fallback_document (destination_code : String) (duration_days : ℤ)
    (gen : GenOutcome)
    (hgen : gen = GenOutcome.failure ∨ gen = GenOutcome.response none)
    (hd : 0 ≤ duration_days) :
    create_structured_itinerary gen destination_code duration_days =
      get_fallback_itinerary (get_city_name destination_code) duration_days ∧
    ((create_structured_itinerary gen destination_code duration_days).daily_itinerary.getD []
      : List DayPlan).length = duration_days.toNat ∧
    ((duration_days.toNat : ℤ) = duration_days) ∧
    (create_structured_itinerary gen destination_code duration_days).daily_itinerary =
      some ((List.range duration_days.toNat).map
        (fun (i : ℕ) => defaultDayPlan (get_city_name destination_code) ((i : ℤ) + 1))) ∧
    (∃ r : Restaurants,
      (create_structured_itinerary gen destination_code duration_days).restaurants = some r ∧
      1 ≤ r.breakfast.length ∧ 1 ≤ r.lunch.length ∧ 1 ≤ r.dinner.length) := by
  have hdoc : create_structured_itinerary gen destination_code duration_days =
      get_fallback_itinerary (get_city_name destination_code) duration_days := by
    rcases hgen with h | h <;> rw [h] <;> rfl
  refine ⟨hdoc, ?_, Int.toNat_of_nonneg hd, ?_, ?_⟩
  · rw [hdoc]
    simp only [get_fallback_itinerary, Option.getD_some]
    exact get_default_itinerary_length _ _
  · rw [hdoc]
    rfl
  · rw [hdoc]
    exact ⟨get_default_restaurants (get_city_name destination_code), rfl,
      by norm_num [get_default_restaurants], by norm_num [get_default_restaurants],
      by norm_num [get_default_restaurants]⟩

/-- Witness for C2: a transport failure on a 3-day Paris request yields a
3-entry daily itinerary. -/
theorem C2_witness :
    ((create_structured_itinerary GenOutcome.failure "PAR" 3).daily_itinerary.getD []
      : List DayPlan).length = (3 : ℤ).toNat :=
  (C2_fallback_document "PAR" 3 GenOutcome.failure (Or.inl rfl) (by norm_num)).2.1

/-- **C3 counterexample**: the validator does not inspect the meal lists, so
a parsed response whose `restaurants` object has an empty breakfast list is
returned with that empty meal list — the claimed "never contains an empty
meal list" is false. -/
theorem C3_counterexample :
    ∃ r : Restaurants,
      (create_structured_itinerary (GenOutcome.response (some emptyBreakfastDoc))
        "BCN" 3).restaurants = some r ∧ r.breakfast = [] := by
  refine ⟨{ breakfast := [], lunch := [sampleRestaurant], dinner := [sampleRestaurant] }, ?_, rfl⟩
  rw [csi_restaurants]
  rfl

/-- **C3 (amended)**: after a successful parse the validator checks only the
presence of the `restaurants` key (never the emptiness of its meal lists)
and the presence and non-emptiness of `daily_itinerary`; each missing piece
is repaired with only its synthetic default, so for a requested duration
`≥ 1` the returned `daily_itinerary` is never empty, while a present
`restaurants` object is returned unchanged, empty meal lists included. -/
theorem C3_validator_presence_only (destination_code : String) (duration_days : ℤ)
    (d : ItineraryData) (hd : 1 ≤ duration_days) :
    ((create_structured_itinerary (GenOutcome.response (some d)) destination_code
        duration_days).restaurants =
      if d.restaurants.isNone then
        some (get_default_restaurants (get_city_name destination_code))
      else d.restaurants) ∧
    ((create_structured_itinerary (GenOutcome.response (some d)) destination_code
        duration_days).daily_itinerary.getD [] ≠ []) ∧
    (d.daily_itinerary.getD [] ≠ [] →
      (create_structured_itinerary (GenOutcome.response (some d)) destination_code
        duration_days).daily_itinerary = d.daily_itinerary) := by
  refine ⟨csi_restaurants _ _ _, ?_, ?_⟩
  · rw [csi_daily]
    by_cases h : d.daily_itinerary.getD [] = []
    · rw [if_pos h, Option.getD_some]
      exact get_default_itinerary_ne_nil (get_city_name destination_code) duration_days hd
    · rw [if_neg h]
      exact h
  · intro h
    rw [csi_daily, if_neg h]

/-- Witness for C3 (amended): a present-but-empty breakfast list survives
while the daily itinerary of the same document is kept. -/
theorem C3_witness :
    (create_structured_itinerary (GenOutcome.response (some emptyBreakfastDoc))
      "BCN" 2).daily_itinerary = emptyBreakfastDoc.daily_itinerary :=
  (C3_validator_presence_only "BCN" 2 emptyBreakfastDoc (by norm_num)).2.2 (by
    simp [emptyBreakfastDoc])

/-- **C4 counterexample**: for a parsed response missing `restaurants` whose
`daily_itinerary` is present but empty, the `daily_itinerary` field is also
replaced (with the nonempty default), so not every other top-level field is
preserved unchanged. -/
theorem C4_counterexample :
    (create_structured_itinerary (GenOutcome.response (some noRestaurantsDoc))
      "ROM" 2).daily_itinerary ≠ noRestaurantsDoc.daily_itinerary := by
  rw [csi_daily]
  intro h
  rw [if_pos (show noRestaurantsDoc.daily_itinerary.getD [] = [] from rfl)] at h
  have hlen := congrArg (fun o : Option (List DayPlan) => (o.getD []).length) h
  simp [get_default_itinerary, noRestaurantsDoc] at hlen

/-- **C4 (amended)**: for every parsed response missing `restaurants`, the
returned document carries the non-empty, correctly shaped synthetic default
`restaurants` block, and every other top-level field is preserved unchanged
except `daily_itinerary`, which is preserved exactly when present and
nonempty (a missing or empty one is independently repaired). -/
theorem C4_repair_frame (destination_code : String) (duration_days : ℤ)
    (d : ItineraryData) (hr : d.restaurants = none) :
    ((create_structured_itinerary (GenOutcome.response (some d)) destination_code
        duration_days).restaurants =
      some (get_default_restaurants (get_city_name destination_code))) ∧
    (get_default_restaurants (get_city_name destination_code)).breakfast ≠ [] ∧
    (get_default_restaurants (get_city_name destination_code)).lunch ≠ [] ∧
    (get_default_restaurants (get_city_name destination_code)).dinner ≠ [] ∧
    ((create_structured_itinerary (GenOutcome.response (some d)) destination_code
        duration_days).overview = d.overview) ∧
    ((create_structured_itinerary (GenOutcome.response (some d)) destination_code
        duration_days).budget_summary = d.budget_summary) ∧
    ((create_structured_itinerary (GenOutcome.response (some d)) destination_code
        duration_days).extra = d.extra) ∧
    (d.daily_itinerary.getD [] ≠ [] →
      (create_structured_itinerary (GenOutcome.response (some d)) destination_code
        duration_days).daily_itinerary = d.daily_itinerary) := by
  refine ⟨?_, by simp [get_default_restaurants], by simp [get_default_restaurants],
    by simp [get_default_restaurants], csi_overview _ _ _, csi_budget_summary _ _ _,
    csi_extra _ _ _, ?_⟩
  · rw [csi_restaurants, hr]
    rfl
  · intro h
    rw [csi_daily, if_neg h]

/-- Witness for C4 (amended): a response missing `restaurants` but carrying
an overview keeps that overview while gaining the default restaurants. -/
theorem C4_witness :
    (create_structured_itinerary (GenOutcome.response (some noRestaurantsDoc))
      "ROM" 2).overview = noRestaurantsDoc.overview :=
  (C4_repair_frame "ROM" 2 noRestaurantsDoc rfl).2.2.2.2.1

/-! ### Helper lemmas about the date sweep -/

/-- The emitted offer count is the sum of the per-offset contributions. -/
theorem analyze_flexible_dates_length (search_flights : ℤ → Option ℤ → Option (List BestFlight))
    (origin destination : String) (start_date : ℤ) (return_date : Option ℤ)
    (days_range : ℕ) :
    (analyze_flexible_dates search_flights origin destination start_date return_date
        days_range).length =
      ((List.range days_range).map
        (sweepContribution search_flights start_date return_date)).sum := by
  rw [analyze_flexible_dates, List.length_flatMap]
  congr 1
  apply List.map_congr_left
  intro i hi
  simp only [Function.comp_apply]
  rcases h : sweepFetch search_flights start_date return_date i with _ | bf
  · rw [sweepFetch] at h
    simp [h, sweepContribution, sweepFetch]
  · rw [sweepFetch] at h
    simp [h, sweepContribution, sweepFetch, List.length_take]

/-- Each offset's contribution is at most 3, and 0 on failure, so the sum is
bounded by `3 ×` the success count. -/
theorem sweep_sum_le (search_flights : ℤ → Option ℤ → Option (List BestFlight))
    (start_date : ℤ) (return_date : Option ℤ) :
    ∀ days_range : ℕ,
      ((List.range days_range).map
        (sweepContribution search_flights start_date return_date)).sum ≤
        3 * sweepSuccesses search_flights start_date return_date days_range := by
  intro n
  induction n with
  | zero => simp [sweepSuccesses]
  | succ n ih =>
    rw [List.range_succ]
    rw [sweepSuccesses, List.range_succ, List.filter_append, List.length_append]
    simp only [List.map_append, List.sum_append, List.map_cons, List.map_nil,
      List.sum_cons, List.sum_nil]
    have hterm : sweepContribution search_flights start_date return_date n ≤
        3 * (List.filter (fun i =>
          (sweepFetch search_flights start_date return_date i).isSome) [n]).length := by
      rcases h : sweepFetch search_flights start_date return_date n with _ | bf
      · simp [sweepContribution, h, List.filter]
      · simp [sweepContribution, h, List.filter]
    have := ih
    rw [sweepSuccesses] at this
    omega

/-- With at least 3 best flights on every successful call, the sum is exactly
`3 ×` the success count. -/
theorem sweep_sum_eq (search_flights : ℤ → Option ℤ → Option (List BestFlight))
    (start_date : ℤ) (return_date : Option ℤ) (days_range : ℕ)
    (hfull : ∀ i < days_range, ∀ bf, sweepFetch search_flights start_date return_date i =
      some bf → 3 ≤ bf.length) :
    ((List.range days_range).map
      (sweepContribution search_flights start_date return_date)).sum =
      3 * sweepSuccesses search_flights start_date return_date days_range := by
  induction days_range with
  | zero => simp [sweepSuccesses]
  | succ n ih =>
    have ihn := ih (fun i hi bf h => hfull i (Nat.lt_succ_of_lt hi) bf h)
    rw [List.range_succ]
    rw [sweepSuccesses, List.range_succ, List.filter_append, List.length_append]
    simp only [List.map_append, List.sum_append, List.map_cons, List.map_nil,
      List.sum_cons, List.sum_nil]
    have hterm : sweepContribution search_flights start_date return_date n =
        3 * (List.filter (fun i =>
          (sweepFetch search_flights start_date return_date i).isSome) [n]).length := by
      rcases h : sweepFetch search_flights start_date return_date n with _ | bf
      · simp [sweepContribution, h, List.filter]
      · have h3 := hfull n (Nat.lt_succ_self n) bf h
        simp [sweepContribution, h, List.filter]
        omega
    rw [sweepSuccesses] at ihn
    omega

/-! ### Claim theorems for the date sweep -/

/-- **C5 counterexample**: a sweep in which every one of the 7 calls succeeds
but returns a single best flight emits 7 offers, not `3 × 7 = 21` — the
claimed cardinality `3 × (number of successful calls)` is false. -/
theorem C5_counterexample :
    (analyze_flexible_dates oneFlightSearch "LHR" "BCN" 0 none 7).length = 7 ∧
    sweepSuccesses oneFlightSearch 0 none 7 = 7 ∧
    (analyze_flexible_dates oneFlightSearch "LHR" "BCN" 0 none 7).length ≠
      3 * sweepSuccesses oneFlightSearch 0 none 7 := by
  refine ⟨rfl, rfl, ?_⟩
  intro h
  have h21 : (7 : ℕ) = 3 * 7 := by
    calc (7 : ℕ) = (analyze_flexible_dates oneFlightSearch "LHR" "BCN" 0 none 7).length := rfl
    _ = 3 * sweepSuccesses oneFlightSearch 0 none 7 := h
    _ = 3 * 7 := rfl
  omega

/-- **C5 (amended)**: the aggregator is total (never raises); every failed or
malformed call contributes zero offers; a successful call at offset `i`
contributes `min 3 |best_flights|` offers, so the emitted cardinality is the
sum of those contributions, is at most `3 × (number of successful calls)`,
and equals it when every successful call returns at least 3 offers. -/
theorem C5_sweep_cardinality (search_flights : ℤ → Option ℤ → Option (List BestFlight))
    (origin destination : String) (start_date : ℤ) (return_date : Option ℤ)
    (days_range : ℕ) :
    ((analyze_flexible_dates search_flights origin destination start_date return_date
        days_range).length =
      ((List.range days_range).map
        (sweepContribution search_flights start_date return_date)).sum) ∧
    ((analyze_flexible_dates search_flights origin destination start_date return_date
        days_range).length ≤
      3 * sweepSuccesses search_flights start_date return_date days_range) ∧
    ((∀ i < days_range, ∀ bf,
        sweepFetch search_flights start_date return_date i = some bf → 3 ≤ bf.length) →
      (analyze_flexible_dates search_flights origin destination start_date return_date
          days_range).length =
        3 * sweepSuccesses search_flights start_date return_date days_range) := by
  refine ⟨analyze_flexible_dates_length _ _ _ _ _ _, ?_, ?_⟩
  · rw [analyze_flexible_dates_length]
    exact sweep_sum_le _ _ _ _
  · intro hfull
    rw [analyze_flexible_dates_length]
    exact sweep_sum_eq _ _ _ _ hfull

/-- Witness for C5 (amended): with three best flights per successful call,
two offsets emit exactly `3 × 2` offers. -/
theorem C5_witness :
    (analyze_flexible_dates threeFlightSearch "LHR" "BCN" 0 none 2).length =
      3 * sweepSuccesses threeFlightSearch 0 none 2 :=
  (C5_sweep_cardinality threeFlightSearch "LHR" "BCN" 0 none 2).2.2 (by
    intro i hi bf hbf
    have hbf' : some [oneBestFlight, oneBestFlight, oneBestFlight] = some bf := hbf
    rw [← Option.some.injEq .. |>.mp hbf']
    rfl)

/-! ### Claim theorem for the rental client's night computation -/

/-- **C6**: contrary to the claim, `search_airbnb` performs no date-ordering
check: with check-out (day 10) two days before check-in (day 12) it does not
fail, but silently computes `nights = -2` and emits a listing whose total
price is the nonsensical string `"-150"` (`-2 × 75`). -/
theorem C6_no_date_ordering_check :
    (10 : ℤ) - 12 = -2 ∧
    toString ((10 - 12 : ℤ) * 75) = "-150" ∧
    search_airbnb (fun _ => some [organicAirbnbResult]) "BCN" 12 10 =
      [{ name := "Cozy flat - Airbnb", description := "Nice loft",
         link := "https://www.airbnb.com/rooms/1", price_per_night := "50-150",
         total_price := "-150", type := "Entire home/Private room" }] :=
  ⟨by norm_num, rfl, rfl⟩

/-! ### Claim theorems for the request coordinator -/

/-- **C7**: a request missing any of destination, origin or outbound date is
answered with HTTP 400 and an error message, and no upstream call is made. -/
theorem C7_missing_fields_rejected (up : Upstream) (data : TripRequest)
    (h : data.destination = none ∨ data.origin = none ∨ data.outbound_date = none) :
    create_itinerary up data = (CoordResult.badRequest "Missing required fields", []) ∧
    httpStatus (create_itinerary up data).1 = 400 ∧
    (create_itinerary up data).2 = [] := by
  have hv : ¬ coordValid data = true := by
    rcases h with h | h | h <;> simp [coordValid, truthy, h]
  have he : create_itinerary up data = (CoordResult.badRequest "Missing required fields", []) := by
    rw [create_itinerary, if_pos hv]
  exact ⟨he, by rw [he]; rfl, by rw [he]⟩

/-- Witness for C7: a destination-less request against the trivial oracles. -/
theorem C7_witness :
    create_itinerary emptyUpstream missingDestRequest =
      (CoordResult.badRequest "Missing required fields", []) :=
  (C7_missing_fields_rejected emptyUpstream missingDestRequest (Or.inl rfl)).1

/-- On a validated request whose ranking succeeds, `create_itinerary` runs
the full successful branch. -/
theorem create_itinerary_ok (up : Upstream) (data : TripRequest)
    (best_flights : List FlightOffer) (hv : coordValid data = true)
    (hok : find_best_value_flights (coord_all_flights up data) = Except.ok best_flights) :
    create_itinerary up data =
      (CoordResult.ok (coord_ok_response up data best_flights).1,
       (coord_ok_response up data best_flights).2) := by
  rw [create_itinerary, if_neg (fun hc => hc hv), hok]

/-- On a validated request whose ranking raises, `create_itinerary` answers
with the server error and only the sweep calls issued. -/
theorem create_itinerary_error (up : Upstream) (data : TripRequest) (e : String)
    (hv : coordValid data = true)
    (herr : find_best_value_flights (coord_all_flights up data) = Except.error e) :
    create_itinerary up data = (CoordResult.serverError e, coord_flight_calls data) := by
  rw [create_itinerary, if_neg (fun hc => hc hv), herr]

/-- **C8 counterexample**: a validated request against an upstream whose
sweep returns an unpriced best flight does not yield an OK response with a
passthrough budget — the ranking raises `TypeError`, the endpoint answers
HTTP 500, and no generation call (hence no budget) is issued. -/
theorem C8_counterexample :
    (create_itinerary crashUpstream validRequest).1 = CoordResult.serverError "TypeError" ∧
    httpStatus (create_itinerary crashUpstream validRequest).1 = 500 ∧
    ∀ c ∈ (create_itinerary crashUpstream validRequest).2, isGenerationCall c = false := by
  refine ⟨rfl, rfl, ?_⟩
  intro c hc
  have hc' : c ∈ coord_flight_calls validRequest := hc
  obtain ⟨i, -, rfl⟩ := List.mem_map.1 hc'
  rfl

/-- **C8 (amended)**: once validation passes and the flight ranking does not
raise (no unpriced offer among the swept offers), the budget recorded in
the generation call and the `remaining_budget` echoed in the response both
equal the total budget minus `best_flights[0].get('price', 0)` — the price
of the cheapest ranked flight (`0` when no ranked flight exists) — with no
clamping, and that cost is a lower bound on every ranked flight's price;
when the ranking raises, the endpoint answers HTTP 500 with no generation
call instead. -/
theorem C8_remaining_budget_passthrough (up : Upstream) (data : TripRequest)
    (best_flights : List FlightOffer) (hv : coordValid data = true)
    (hok : find_best_value_flights (coord_all_flights up data) = Except.ok best_flights) :
    ((create_itinerary up data).1 =
      CoordResult.ok (coord_ok_response up data best_flights).1) ∧
    ((coord_ok_response up data best_flights).1.flight_options = best_flights) ∧
    ((coord_ok_response up data best_flights).1.remaining_budget =
      data.budget.getD 1000 - coordFlightCost best_flights) ∧
    (UpstreamCall.generation (data.destination.getD "")
      ((coord_ok_response up data best_flights).1.remaining_budget)
      (coordDurationReturn data).1 ∈ (create_itinerary up data).2) ∧
    (∀ f ∈ best_flights, ∀ p : ℚ, f.price = some p → coordFlightCost best_flights ≤ p) := by
  have he := create_itinerary_ok up data best_flights hv hok
  refine ⟨by rw [he], rfl, rfl, ?_, ?_⟩
  · rw [he]
    exact List.mem_append_right _ (List.mem_singleton.2 rfl)
  · exact coordFlightCost_min _ (find_best_value_flights_sorted _ _ hok)

/-- Witness for C8 (amended): with no ranked flights the remaining budget is
the whole budget minus the default cost 0. -/
theorem C8_witness :
    (coord_ok_response emptyUpstream validRequest []).1.remaining_budget =
      validRequest.budget.getD 1000 - coordFlightCost [] :=
  (C8_remaining_budget_passthrough emptyUpstream validRequest [] rfl rfl).2.2.1

/-- The default itinerary is empty for a nonpositive day count: the Python
`range(1, days + 1)` is empty. -/
theorem get_default_itinerary_nonpos (city : String) (d : ℤ) (h : d ≤ 0) :
    get_default_itinerary city d = [] := by
  rw [get_default_itinerary]
  have : d.toNat = 0 := by omega
  rw [this]
  rfl

/-- **C10 counterexample**: an inverted-dates request does not always
proceed to HTTP 200 — against an upstream whose sweep returns an unpriced
best flight, the ranking raises `TypeError` and the endpoint answers
HTTP 500, refuting the claimed unconditional 200. -/
theorem C10_counterexample :
    httpStatus (create_itinerary crashUpstream invertedDatesRequest).1 = 500 ∧
    httpStatus (create_itinerary crashUpstream invertedDatesRequest).1 ≠ 200 := by
  refine ⟨rfl, ?_⟩
  intro h
  have h' : (500 : ℕ) = 200 :=
    ((rfl : httpStatus (create_itinerary crashUpstream invertedDatesRequest).1 = 500).symm).trans h
  omega

/-- **C10 (amended)**: a request whose return date is on or before its
outbound date is accepted: validation passes, the trip duration is the
nonpositive `return - outbound`, and — provided the flight ranking does not
raise (it raises `TypeError`, hence HTTP 500, when an unpriced offer is
swept) — the request proceeds, HTTP 200 is returned with the sweep and
generation calls issued, and with a failing generation call the fallback
`daily_itinerary` is the empty list; indeed the default itinerary is empty
for every nonpositive duration. -/
theorem C10_nonpositive_duration_accepted (up : Upstream) (data : TripRequest)
    (dest orig : String) (outd retd : ℤ) (best_flights : List FlightOffer)
    (hdest : data.destination = some dest) (hd : dest ≠ "")
    (horig : data.origin = some orig) (ho : orig ≠ "")
    (hout : data.outbound_date = some outd) (hret : data.return_date = some retd)
    (hle : retd ≤ outd) (hgen : up.gen = GenOutcome.failure)
    (hok : find_best_value_flights (coord_all_flights up data) = Except.ok best_flights) :
    ((create_itinerary up data).1 =
      CoordResult.ok (coord_ok_response up data best_flights).1) ∧
    (httpStatus (create_itinerary up data).1 = 200) ∧
    ((coord_ok_response up data best_flights).1.trip_duration = retd - outd) ∧
    ((coord_ok_response up data best_flights).1.trip_duration ≤ 0) ∧
    ((coord_ok_response up data best_flights).1.itinerary.daily_itinerary = some []) ∧
    (UpstreamCall.generation (data.destination.getD "")
      ((coord_ok_response up data best_flights).1.remaining_budget)
      (coordDurationReturn data).1 ∈ (create_itinerary up data).2) ∧
    (∀ city : String, ∀ d : ℤ, d ≤ 0 → get_default_itinerary city d = []) := by
  have hv : coordValid data = true := by
    simp [coordValid, truthy, hdest, horig, hout, hd, ho]
  have he := create_itinerary_ok up data best_flights hv hok
  have hdur : coordDurationReturn data = (retd - outd, retd) := by
    rw [coordDurationReturn, hret, hout]
    rfl
  have htrip : (coord_ok_response up data best_flights).1.trip_duration = retd - outd := by
    have h1 : (coord_ok_response up data best_flights).1.trip_duration =
        (coordDurationReturn data).1 := rfl
    rw [h1, hdur]
  refine ⟨by rw [he], by rw [he]; rfl, htrip, by rw [htrip]; omega, ?_, ?_, ?_⟩
  · have hitin : (coord_ok_response up data best_flights).1.itinerary =
        create_structured_itinerary up.gen (data.destination.getD "")
          (coordDurationReturn data).1 := rfl
    rw [hitin, hgen, hdur]
    show (get_fallback_itinerary (get_city_name (data.destination.getD ""))
      (retd - outd)).daily_itinerary = some []
    rw [get_fallback_itinerary]
    rw [get_default_itinerary_nonpos _ _ (by omega)]
  · rw [he]
    exact List.mem_append_right _ (List.mem_singleton.2 rfl)
  · exact get_default_itinerary_nonpos

/-- Witness for C10 (amended): the inverted-dates request against the
all-failing oracles yields trip duration `-2`, an empty daily itinerary,
and HTTP status 200. -/
theorem C10_witness :
    (coord_ok_response emptyUpstream invertedDatesRequest []).1.trip_duration = 8 - 10 ∧
    (coord_ok_response emptyUpstream invertedDatesRequest []).1.itinerary.daily_itinerary =
      some [] ∧
    httpStatus (create_itinerary emptyUpstream invertedDatesRequest).1 = 200 :=
  have h := C10_nonpositive_duration_accepted emptyUpstream invertedDatesRequest
    "BCN" "LHR" 10 8 [] rfl (by decide) rfl (by decide) rfl rfl (by omega) rfl rfl
  ⟨h.2.2.1, h.2.2.2.2.1, h.2.1⟩

end FlightAgent
